import Mathlib

/-!
Verification of the Image Transform & Export Pipeline of `src/app.py`
(a PyQt/PIL photo editor).  The definitions below are a shallow
embedding of the code paths that carry the pipeline's logic:

* `update_height_maintain_ratio` / `update_width_maintain_ratio`
  (dimension computation with aspect-ratio locking, app.py 798-812);
* `apply_background_removal` and the submission step of the
  background-removal thread (app.py 825-873, 141-175);
* the `save_image` export pipeline with its per-format branches
  (app.py 937-1037);
* `save_as_svg_direct`, the SVG document builder (app.py 1039-1063);
* `format_changed`, the UI reaction to selecting a format (app.py 1065-1078).

Machine integers are modelled as `Nat`.  The ratio computation of
`update_height_maintain_ratio`/`update_width_maintain_ratio` is
performed by Python in binary64 (IEEE-754 double) arithmetic; it is
modelled bit-faithfully by `floatTrunc`, which evaluates
`int(value * (a / b))` with one round-to-nearest-even at 53
significant bits per floating-point operation (the operands, integers
up to 9999, convert to doubles exactly; all intermediate magnitudes lie
well inside the normal double range, so overflow and subnormals cannot
arise and are not modelled).  External collaborators (PIL's resampler
and encoders, rembg) are either parameters of the pipeline functions or
modelled by their documented behaviour, with a doc comment at each
point saying exactly what is assumed.
-/

namespace PhotoEditor

/-- Channel layout of a PIL image buffer.  The pipeline only branches on
whether the buffer is `RGBA` (has an alpha channel) or not; we model the
two layouts the export paths distinguish. -/
inductive Mode where
  | RGB
  | RGBA
deriving DecidableEq, Repr

/-- One pixel: red, green, blue, alpha channels, each a byte in `[0,255]`.
For an `RGB` buffer the alpha field is unused (kept at 255). -/
structure Pixel where
  r : Nat
  g : Nat
  b : Nat
  a : Nat
deriving DecidableEq, Repr

/-- An in-memory image buffer: width, height, channel layout and
row-major pixel data. -/
structure Img where
  width : Nat
  height : Nat
  mode : Mode
  pixels : List Pixel
deriving DecidableEq, Repr

/-- The eight output formats offered by the format combo box
(app.py 390). -/
inductive Format where
  | JPEG
  | PNG
  | BMP
  | TIFF
  | GIF
  | WEBP
  | ICO
  | SVG
deriving DecidableEq, Repr

/-! ## Binary64 arithmetic of the ratio computation

`update_height_maintain_ratio` computes
`int(self.width_spin.value() * ratio)` where
`ratio = original_h / original_w` — two binary64 (IEEE-754 double)
operations, each rounded to nearest (ties to even) at 53 significant
bits, followed by Python `int` truncation (floor, on these nonnegative
values).  The integer operands (spin values and original dimensions,
all ≤ 9999 < 2⁵³) convert to doubles exactly, and every intermediate
magnitude lies between 1/9999 and 9999², far inside the normal double
range, so neither overflow nor subnormals can occur; the model below
therefore implements an unbounded-exponent binary64 with
round-to-nearest-even, evaluated purely on naturals and integers. -/

/-- Round-to-nearest of the ratio `a / b` of naturals (`b > 0`), ties to
even: the quotient, rounded up when twice the remainder exceeds the
divisor, and to the even neighbour on an exact half. -/
def roundNEDiv (a b : ℕ) : ℕ :=
  if 2 * (a % b) < b then a / b
  else if b < 2 * (a % b) then a / b + 1
  else if (a / b) % 2 = 0 then a / b else a / b + 1

/-- Fuel-driven floor of log₂ (the fuel makes the recursion structural,
so that the kernel can evaluate it on literals). -/
def log2fuel : Nat → Nat → Nat
  | 0, _ => 0
  | fuel + 1, n => if n < 2 then 0 else log2fuel fuel (n / 2) + 1

/-- Floor of log₂ of a positive natural. -/
def natLog2 (n : ℕ) : ℕ := log2fuel n n

/-- Floor of log₂ of `a / b` (both positive), as an integer: the
difference of the operands' bit lengths, corrected by one exact
comparison. -/
def ratLog2 (a b : ℕ) : ℤ :=
  let e0 : ℤ := (natLog2 a : ℤ) - (natLog2 b : ℤ)
  if b * 2 ^ e0.toNat ≤ a * 2 ^ (-e0).toNat then e0 else e0 - 1

/-- One binary64 division of naturals `H / W` (`H, W ≥ 1`), returned as
mantissa and exponent: the value of the double is `m · 2^(e−52)` with
`m ∈ [2⁵², 2⁵³]` the round-to-nearest-even 53-bit mantissa. -/
def floatDiv (H W : ℕ) : ℕ × ℤ :=
  let e := ratLog2 H W
  (roundNEDiv (H * 2 ^ (52 - e).toNat) (W * 2 ^ (e - 52).toNat), e)

/-- Binary64 evaluation of Python's `int(V * (H / W))` for naturals:
one rounded division `H / W`, one rounded multiplication by `V` (exact
integer operands, so no further rounding), then truncation toward zero.
A zero operand short-circuits to 0, as the float computation does
(`W = 0` cannot reach this code: the callers guard on the divisor). -/
def floatTrunc (V H W : ℕ) : ℕ :=
  if V = 0 ∨ H = 0 ∨ W = 0 then 0
  else
    let m1 := (floatDiv H W).1
    let e1 := (floatDiv H W).2
    let L := natLog2 (V * m1)
    let m2 := roundNEDiv (V * m1) (2 ^ (L - 52))
    let e2 : ℤ := e1 + (L : ℤ) - 52
    if 52 ≤ e2 then m2 * 2 ^ (e2 - 52).toNat else m2 / 2 ^ (52 - e2).toNat

/-! ## Dimension calculation (app.py 798-812)

Both spin boxes are created with `setRange(1, 9999)` (app.py 355, 364),
so `QSpinBox.setValue v` stores `v` clamped into `[1, 9999]`. -/

/-- Clamping applied by `QSpinBox.setValue` for the width/height spin
boxes, whose range is `[1, 9999]` (app.py 355, 364). -/
def spinClamp (v : Nat) : Nat := min 9999 (max 1 v)

/-- Shallow embedding of `ImageEditorApp.update_height_maintain_ratio`
(app.py 798-804): the Python code computes
`int(width_spin.value() * (original_h / original_w))` in binary64
floating point — modelled bit-faithfully by `floatTrunc` — and stores
the result in the height spin box, which clamps it into `[1, 9999]`.
Returns the new value of the height spin box. -/
def update_height_maintain_ratio (maintainRatio : Bool)
    (originalW originalH : Nat) (widthVal heightVal : Nat) : Nat :=
  if maintainRatio && decide (0 < originalW) then
    spinClamp (floatTrunc widthVal originalH originalW)
  else
    heightVal

/-- Shallow embedding of `ImageEditorApp.update_width_maintain_ratio`
(app.py 806-812), symmetric to `update_height_maintain_ratio`: guarded
by `original_size[1] > 0` (the original *height*) and recomputes the
width spin box from the height one via
`int(height_spin.value() * (original_w / original_h))` in binary64. -/
def update_width_maintain_ratio (maintainRatio : Bool)
    (originalW originalH : Nat) (widthVal heightVal : Nat) : Nat :=
  if maintainRatio && decide (0 < originalH) then
    spinClamp (floatTrunc heightVal originalW originalH)
  else
    widthVal

/-! ## Background removal (app.py 141-175, 825-873)

`apply_background_removal` starts a `BackgroundRemovalThread` and blocks
on a modal dialog until the thread's terminal signal closes it; the
outcome the method then observes is one of: an exception was raised
while setting the job up, or the dialog closed after the thread's
`error` signal (no `processed_image` attribute was set), or the dialog
closed after the `finished` signal (with the processed image). -/

/-- Terminal outcome of one background-removal job as observed by
`apply_background_removal` after the modal dialog closes. -/
inductive BgJobOutcome where
  | setupError
  | threadError
  | done (result : Img)
deriving DecidableEq, Repr

/-- Shallow embedding of `ImageEditorApp.apply_background_removal`
(app.py 825-873).  Returns the image handed back to the caller:
* `img` unchanged when `rembg` is unavailable or the checkbox is not
  checked (app.py 827-828);
* `img` unchanged when an exception occurs while setting up the job
  (the `except` branch, app.py 868-873);
* `img` unchanged when the thread ended with the `error` signal (no
  `processed_image` attribute exists, app.py 862-866);
* the thread's result when the thread finished successfully
  (app.py 875-877, 862-864). -/
def apply_background_removal (rembgAvailable checked : Bool)
    (outcome : BgJobOutcome) (img : Img) : Img :=
  if !rembgAvailable || !checked then img
  else
    match outcome with
    | .setupError => img
    | .threadError => img
    | .done result => result

/-- State of one `ImageEditorApp` instance as far as background-removal
jobs are concerned: the thread handle stored in `self.bg_thread`, if
any job has been created (`none` before the first submission). -/
structure AppBgState where
  bg_thread : Option Img
deriving DecidableEq, Repr

/-- Result vocabulary for submitting a background-removal job.  The
spec's error vocabulary includes `JobAlreadyRunning`; the constructor is
present so that theorems can state whether the code ever produces it. -/
inductive SubmitResult where
  | started (newState : AppBgState)
  | rejectedJobAlreadyRunning
deriving DecidableEq, Repr

/-- Shallow embedding of the submission step of
`apply_background_removal` (app.py 835-840): a new
`BackgroundRemovalThread(img)` is created, its signals connected, the
thread started, and the handle stored in `self.bg_thread`,
unconditionally — the source performs no check of whether a previously
stored thread is still running, and no `JobAlreadyRunning` error exists
anywhere in `src/app.py`. -/
def submit_bg_job (_s : AppBgState) (img : Img) : SubmitResult :=
  .started { bg_thread := some img }

/-! ## ICO size selection (app.py 1005-1019) -/

/-- Shallow embedding of the icon-size list built by the ICO branch of
`save_image` (app.py 1007-1016): one entry per checked size checkbox,
in the fixed order 16, 32, 48, 64, 128, 256; if no checkbox is checked
the default `[(32, 32)]` is substituted. -/
def ico_sizes (s16 s32 s48 s64 s128 s256 : Bool) : List (Nat × Nat) :=
  let sizes : List (Nat × Nat) :=
    (if s16 then [(16, 16)] else []) ++
    (if s32 then [(32, 32)] else []) ++
    (if s48 then [(48, 48)] else []) ++
    (if s64 then [(64, 64)] else []) ++
    (if s128 then [(128, 128)] else []) ++
    (if s256 then [(256, 256)] else [])
  if sizes = [] then [(32, 32)] else sizes

/-! ## JPEG alpha flattening (app.py 998-1003)

For `selected_format == "JPEG"` with an `RGBA` buffer, the code builds
an opaque white `RGBA` background and calls
`Image.alpha_composite(white_bg, img)` followed by `.convert('RGB')`.
`Image.alpha_composite` implements Porter-Duff *over*; with a fully
opaque destination the output alpha is 255 and each colour channel is
`out = src*a/255 + 255*(255-a)/255`, which PIL computes with
round-to-nearest per channel.  We model that per-channel blend
exactly, rounding to nearest (ties up, matching PIL's `+0x80` fixed
point rounding). -/

/-- One colour channel composited over opaque white:
`round((src*a + 255*(255-a)) / 255)` with ties rounded up. -/
def blendWhiteChan (src a : Nat) : Nat :=
  (src * a + 255 * (255 - a) + 127) / 255

/-- One pixel composited over opaque white: each colour channel is
blended with `blendWhiteChan`, the resulting alpha of *over* with an
opaque destination is 255. -/
def blendWhitePixel (p : Pixel) : Pixel :=
  { r := blendWhiteChan p.r p.a
    g := blendWhiteChan p.g p.a
    b := blendWhiteChan p.b p.a
    a := 255 }

/-- Shallow embedding of the JPEG preparation step (app.py 1000-1002):
if the buffer is `RGBA` it is composited over opaque white and
converted to `RGB`; otherwise it is left unchanged. -/
def jpegPrepare (img : Img) : Img :=
  if img.mode = .RGBA then
    { width := img.width
      height := img.height
      mode := .RGB
      pixels := img.pixels.map blendWhitePixel }
  else
    img

/-! ## Decimal formatting and base64 (app.py 1054, `base64.b64encode`)

The SVG template interpolates `width`/`height` (Python f-string decimal
formatting of nonnegative ints) and the base64 encoding of the PNG
bytes.  Both are reimplemented here so that their character sets can be
reasoned about. -/

/-- Decimal representation of a natural number as its list of digit
characters — the embedding of Python's f-string formatting of a
nonnegative `int`. -/
def natChars (n : Nat) : List Char :=
  if _h : n < 10 then [Nat.digitChar n]
  else natChars (n / 10) ++ [Nat.digitChar (n % 10)]
decreasing_by exact Nat.div_lt_self (by omega) (by omega)

/-- Standard base64 alphabet used by `base64.b64encode`. -/
def b64Alphabet : List Char :=
  "ABCDEFGHIJKLMNOPQRSTUVWXYZabcdefghijklmnopqrstuvwxyz0123456789+/".toList

/-- Character for one 6-bit group (out-of-range indices, which never
arise from byte inputs, default to the first alphabet letter). -/
def b64Char (n : Nat) : Char := b64Alphabet.getD n 'A'

/-- Base64 encoding of a byte list, the embedding of Python's
`base64.b64encode` (app.py 1054): 3-byte groups become 4 alphabet
characters, a trailing group of 1 or 2 bytes is padded with `=`. -/
def b64encode : List Nat → List Char
  | [] => []
  | [a] => [b64Char (a / 4), b64Char (a % 4 * 16), '=', '=']
  | [a, b] => [b64Char (a / 4), b64Char (a % 4 * 16 + b / 16), b64Char (b % 16 * 4), '=']
  | a :: b :: c :: rest =>
    b64Char (a / 4) :: b64Char (a % 4 * 16 + b / 16) ::
      b64Char (b % 16 * 4 + c / 64) :: b64Char (c % 64) :: b64encode rest

/-! ## The SVG document builder (app.py 1039-1063)

`save_as_svg_direct` encodes the image to PNG in memory, then writes the
f-string template of app.py 1049-1055 (whitespace reproduced exactly,
including the newlines and indentation inside the template) with the
width, height and base64 payload interpolated. -/

/-- Constant part of the SVG template up to the interpolated width of
the root element (app.py 1049-1052). -/
def svgPart1 : List Char :=
  ("<?xml version=\"1.0\" encoding=\"UTF-8\" standalone=\"no\"?>\n            <svg xmlns=\"http://www.w3.org/2000/svg\" \n                 xmlns:xlink=\"http://www.w3.org/1999/xlink\" \n                 width=\"").toList

/-- Constant between the width and height attribute values (both in the
root element and in the image element). -/
def svgPart2 : List Char := ("\" height=\"").toList

/-- Constant between the root height value and the viewBox values. -/
def svgPart3 : List Char := ("\" viewBox=\"0 0 ").toList

/-- Constant between the two viewBox numbers. -/
def svgPart4 : List Char := (" ").toList

/-- Constant between the viewBox and the image element's width value
(app.py 1052-1053). -/
def svgPart5 : List Char := ("\">\n                <image width=\"").toList

/-- Constant between the image height value and the base64 payload
(app.py 1053-1054). -/
def svgPart6 : List Char :=
  ("\" \n                       xlink:href=\"data:image/png;base64,").toList

/-- Constant closing the document (app.py 1054-1055). -/
def svgPart7 : List Char := ("\"/>\n            </svg>").toList

/-- Character sequence of the SVG document built by the f-string of
`save_as_svg_direct` (app.py 1049-1055), as a function of the two
interpolated dimensions and the base64 payload. -/
def svgDocChars (w h : Nat) (data : List Char) : List Char :=
  svgPart1 ++ natChars w ++ svgPart2 ++ natChars h ++ svgPart3 ++
    natChars w ++ svgPart4 ++ natChars h ++ svgPart5 ++ natChars w ++
    svgPart2 ++ natChars h ++ svgPart6 ++ data ++ svgPart7

/-- Shallow embedding of `ImageEditorApp.save_as_svg_direct`
(app.py 1039-1059), returning the document it writes to the file.  The
in-memory PNG encode `img.save(png_buffer, format="PNG", quality=quality)`
is the external PIL PNG encoder, a parameter here.  Its Lean type takes
the image only: PIL's PNG save path consults only PNG-specific encoder
options (`optimize`, `compress_level`, …), so the forwarded `quality`
keyword is never read and the produced bytes are a function of the image
alone; the unread `quality` argument of the Python function is kept as
an (unused) argument of the embedding. -/
def save_as_svg_direct (pngEncode : Img → List Nat) (img : Img)
    (_quality : Nat) : List Char :=
  svgDocChars img.width img.height (b64encode (pngEncode img))

/-! ## The save pipeline (app.py 937-1037) -/

/-- Byte stream handed to persistence, one constructor per encode branch
of `save_image`: the JPEG branch (with its flattened image and the
quality-slider value), the ICO branch (with its size list), the SVG
branch (with the document text), and the direct `img.save(file_path)`
branch used for PNG/BMP/TIFF/GIF/WEBP. -/
inductive Encoded where
  | jpeg (img : Img) (quality : Nat)
  | ico (img : Img) (sizes : List (Nat × Nat))
  | svg (doc : List Char)
  | direct (fmt : Format) (img : Img)
deriving DecidableEq, Repr

/-- Validation-error vocabulary from the spec (§7).  `save_image` is
modelled as returning `Except SaveError SaveRun` so that theorems can
state which of these errors the code can and cannot produce. -/
inductive SaveError where
  | incompatibleOption
  | jobAlreadyRunning
deriving DecidableEq, Repr

/-- Record of one completed run of the `save_image` body: the target
size passed to `resize`, whether the background-removal step was
invoked (the condition of app.py 991), and what was encoded. -/
structure SaveRun where
  resizedTo : Nat × Nat
  bgRemovalInvoked : Bool
  encoded : Encoded
deriving DecidableEq, Repr

/-- The per-format encode step of `save_image` (app.py 997-1026):
JPEG flattens alpha then saves with the quality-slider value; ICO saves
with the checked size list (app.py 1005-1019); SVG calls
`save_as_svg_direct` with the SVG-quality-slider value; every other
format saves directly. -/
def encodeFor (pngEncode : Img → List Nat) (fmt : Format)
    (quality svgQuality : Nat) (s16 s32 s48 s64 s128 s256 : Bool)
    (img : Img) : Encoded :=
  match fmt with
  | .JPEG => .jpeg (jpegPrepare img) quality
  | .ICO => .ico img (ico_sizes s16 s32 s48 s64 s128 s256)
  | .SVG => .svg (save_as_svg_direct pngEncode img svgQuality)
  | f => .direct f img

/-- Shallow embedding of the body of `ImageEditorApp.save_image`
(app.py 980-1027), from the `try` block on: the source first copies and
resizes the current image (app.py 983-987, the external PIL Lanczos
resampler is the `resample` parameter), invokes background removal only
when the checkbox is checked, rembg is available and the selected
format is not SVG (app.py 991), then encodes per format and writes the
result.  `fmt` is the format finally selected (the JPEG-transparency
confirmation dialog of app.py 958-967 may have switched it to PNG
before this point).  No branch of the source raises a validation
error: the function always reaches the encode step and returns `.ok`;
the `SaveError` vocabulary exists only so theorems can state this. -/
def save_image (resample : Img → Nat → Nat → Img)
    (pngEncode : Img → List Nat) (fmt : Format)
    (removeBgChecked rembgAvailable : Bool) (bgOutcome : BgJobOutcome)
    (widthVal heightVal quality svgQuality : Nat)
    (s16 s32 s48 s64 s128 s256 : Bool)
    (current : Img) : Except SaveError SaveRun :=
  let resized := resample current widthVal heightVal
  let bgInvoked := removeBgChecked && rembgAvailable && decide (fmt ≠ Format.SVG)
  let afterBg :=
    if bgInvoked then
      apply_background_removal rembgAvailable removeBgChecked bgOutcome resized
    else resized
  .ok { resizedTo := (widthVal, heightVal)
        bgRemovalInvoked := bgInvoked
        encoded := encodeFor pngEncode fmt quality svgQuality
          s16 s32 s48 s64 s128 s256 afterBg }

/-- Embedding of `ImageEditorApp.format_changed` (app.py 1065-1078),
restricted to the state of the remove-background checkbox that it
manipulates: returns the pair (enabled, checked) after a switch to
`fmt`.  Selecting SVG disables *and unchecks* the checkbox; any other
format re-enables it according to rembg availability and leaves the
checked state alone. -/
def format_changed (fmt : Format) (rembgAvailable : Bool)
    (checkedBefore : Bool) : Bool × Bool :=
  if fmt = Format.SVG then (false, false)
  else (rembgAvailable, checkedBefore)

/-! ## Auxiliary definitions used by the theorems -/

/-- Double-quote character (the attribute-value delimiter of the SVG
template). -/
def dq : Char := '\x22'

/-- Segments of a character list between occurrences of the character
`c`: a list with one occurrence of `c` splits into the part before and
the part after, and so on.  Used to state structural properties of the
generated SVG document (its markup item list via `c := '<'` and its
attribute-value list via `c := dq`). -/
def splitOnChar (c : Char) : List Char → List (List Char)
  | [] => [[]]
  | x :: xs =>
    match splitOnChar c xs with
    | [] => [[x]]
    | s :: ss => if x = c then [] :: s :: ss else (x :: s) :: ss

/-- Channel blend as the spec words it: `out = src_rgb × src_alpha/255 +
white × (1 − src_alpha/255)` with white = 255, rounded to the nearest
integer (the rounding the PIL compositor applies).  This is the
spec-side definition, to be compared with `blendWhiteChan` from the
code. -/
def specBlendChan (s a : Nat) : Nat :=
  (round ((s * a : ℚ) / 255 + 255 * (1 - (a : ℚ) / 255))).toNat

/-- Pixel-level form of `specBlendChan`: every colour channel blended
over white, result fully opaque. -/
def specBlendPixel (p : Pixel) : Pixel :=
  { r := specBlendChan p.r p.a
    g := specBlendChan p.g p.a
    b := specBlendChan p.b p.a
    a := 255 }

/-- Concrete 2×1 RGBA buffer used to instantiate witnesses and
counterexamples. -/
def imgRGBA : Img :=
  { width := 2, height := 1, mode := Mode.RGBA,
    pixels := [⟨10, 20, 30, 0⟩, ⟨100, 150, 200, 128⟩] }

/-- Concrete 1×1 RGB buffer used to instantiate counterexamples. -/
def imgSmall : Img :=
  { width := 1, height := 1, mode := Mode.RGB, pixels := [⟨5, 6, 7, 255⟩] }

/-! ## Helper lemmas -/

/-- Digit characters produced by `Nat.digitChar` on inputs below ten are
decimal digits. -/
theorem digitChar_mem (d : Nat) (hd : d < 10) :
    Nat.digitChar d ∈ "0123456789".toList := by
  interval_cases d <;> decide

/-- Every character of a decimal rendering is a decimal digit. -/
theorem natChars_mem (n : Nat) : ∀ c ∈ natChars n, c ∈ "0123456789".toList := by
  induction n using natChars.induct with
  | case1 n h =>
    intro c hc
    rw [ natChars] at hc
    simp only [h, dif_pos, List.mem_singleton] at hc
    subst hc
    exact digitChar_mem n h
  | case2 n h ih =>
    intro c hc
    rw [ natChars] at hc
    simp only [h, dif_neg, not_false_eq_true] at hc
    rcases List.mem_append.mp hc with h1 | h1
    · exact ih c h1
    · simp only [List.mem_singleton] at h1
      subst h1
      exact digitChar_mem _ (Nat.mod_lt _ (by omega))

/-- A decimal rendering contains no double quote. -/
theorem natChars_no_dq (n : Nat) : dq ∉ natChars n := fun h => by
  have hd := natChars_mem n dq h
  revert hd
  decide

/-- A decimal rendering contains no opening angle bracket. -/
theorem natChars_no_lt (n : Nat) : '<' ∉ natChars n := fun h => by
  have hd := natChars_mem n '<' h
  revert hd
  decide

/-- The base64 character table only yields characters of the alphabet
(out-of-range indices yield the default, itself in the alphabet). -/
theorem b64Char_mem (n : Nat) : b64Char n ∈ b64Alphabet := by
  unfold b64Char
  rcases Nat.lt_or_ge n b64Alphabet.length with h | h
  · rw [List.getD_eq_getElem?_getD, List.getElem?_eq_getElem h]
    exact List.getElem_mem h
  · rw [List.getD_eq_default _ _ h]
    decide

/-- Every character of a base64 encoding is an alphabet character or the
padding character. -/
theorem b64encode_mem (bs : List Nat) :
    ∀ c ∈ b64encode bs, c ∈ b64Alphabet ∨ c = '=' := by
  induction bs using b64encode.induct with
  | case1 =>
    intro c hc
    simp [ b64encode] at hc
  | case2 a =>
    intro c hc
    rw [ b64encode] at hc
    simp only [List.mem_cons, List.not_mem_nil, or_false] at hc
    rcases hc with rfl | rfl | rfl | rfl
    · exact Or.inl (b64Char_mem _)
    · exact Or.inl (b64Char_mem _)
    · exact Or.inr rfl
    · exact Or.inr rfl
  | case3 a b =>
    intro c hc
    rw [ b64encode] at hc
    simp only [List.mem_cons, List.not_mem_nil, or_false] at hc
    rcases hc with rfl | rfl | rfl | rfl
    · exact Or.inl (b64Char_mem _)
    · exact Or.inl (b64Char_mem _)
    · exact Or.inl (b64Char_mem _)
    · exact Or.inr rfl
  | case4 a b c rest ih =>
    intro x hx
    rw [ b64encode] at hx
    simp only [List.mem_cons] at hx
    rcases hx with rfl | rfl | rfl | rfl | h
    · exact Or.inl (b64Char_mem _)
    · exact Or.inl (b64Char_mem _)
    · exact Or.inl (b64Char_mem _)
    · exact Or.inl (b64Char_mem _)
    · exact ih x h

/-- A base64 encoding contains no double quote. -/
theorem b64encode_no_dq (bs : List Nat) : dq ∉ b64encode bs := fun h => by
  rcases b64encode_mem bs dq h with h1 | h1 <;> revert h1 <;> decide

/-- A base64 encoding contains no opening angle bracket. -/
theorem b64encode_no_lt (bs : List Nat) : '<' ∉ b64encode bs := fun h => by
  rcases b64encode_mem bs '<' h with h1 | h1 <;> revert h1 <;> decide

/-- Splitting never yields the empty segment list. -/
theorem splitOnChar_ne_nil (c : Char) (l : List Char) : splitOnChar c l ≠ [] := by
  cases l with
  | nil => simp [splitOnChar]
  | cons x xs =>
    rw [splitOnChar]
    rcases h : splitOnChar c xs with _ | ⟨s, ss⟩
    · simp
    · by_cases hx : x = c <;> simp [hx]

/-- Splitting a list that starts with the separator yields a leading
empty segment. -/
theorem splitOnChar_cons_self (c : Char) (l : List Char) :
    splitOnChar c (c :: l) = [] :: splitOnChar c l := by
  rw [splitOnChar]
  rcases h : splitOnChar c l with _ | ⟨s, ss⟩
  · exact absurd h (splitOnChar_ne_nil c l)
  · simp

/-- Splitting a separator-free list yields that list as the only
segment. -/
theorem splitOnChar_of_not_mem {c : Char} {l : List Char} (h : c ∉ l) :
    splitOnChar c l = [l] := by
  induction l with
  | nil => rfl
  | cons x xs ih =>
    simp only [List.mem_cons, not_or] at h
    have hx : ¬ x = c := fun heq => h.1 heq.symm
    rw [splitOnChar, ih h.2]
    simp [hx]

/-- Splitting peels off one separator-free segment before an occurrence
of the separator. -/
theorem splitOnChar_append {c : Char} (xs : List Char) (ys : List Char) (h : c ∉ xs) :
    splitOnChar c (xs ++ c :: ys) = xs :: splitOnChar c ys := by
  induction xs with
  | nil => simpa using splitOnChar_cons_self c ys
  | cons x xs ih =>
    simp only [List.mem_cons, not_or] at h
    have hx : ¬ x = c := fun heq => h.1 heq.symm
    rw [List.cons_append, splitOnChar, ih h.2]
    simp [hx]

/-- Rounding a rational `N / 255` to the nearest integer is the natural
computation `(N + 127) / 255`. -/
theorem round_div_255 (N : ℕ) : round ((N : ℚ) / 255) = ((N + 127) / 255 : ℕ) := by
  rw [round_eq]
  have h255 : ((N : ℚ) / 255 + 1 / 2) = ((2 * N + 255 : ℕ) : ℚ) / ((510 : ℕ) : ℚ) := by
    push_cast
    ring
  rw [h255]
  have hx : (0 : ℚ) ≤ ((2 * N + 255 : ℕ) : ℚ) / ((510 : ℕ) : ℚ) := by positivity
  rw [← Int.toNat_of_nonneg (Int.floor_nonneg.mpr hx), Int.floor_toNat, Nat.floor_div_nat,
    Nat.floor_natCast]
  exact_mod_cast congrArg Nat.cast (by omega : (2 * N + 255) / 510 = (N + 127) / 255)

/-- The code's fixed-point blend over white agrees with the spec formula
rounded to nearest, for byte-ranged alpha. -/
theorem blendWhiteChan_eq_spec (s a : Nat) (ha : a ≤ 255) :
    blendWhiteChan s a = specBlendChan s a := by
  unfold blendWhiteChan specBlendChan
  have hcast : (s * a : ℚ) / 255 + 255 * (1 - (a : ℚ) / 255) =
      ((s * a + 255 * (255 - a) : ℕ) : ℚ) / 255 := by
    have h1 : ((255 - a : ℕ) : ℚ) = 255 - (a : ℚ) := by
      push_cast [Nat.cast_sub ha]
      ring
    push_cast [h1]
    ring
  rw [hcast, round_div_255, Int.toNat_natCast]

/-- Pixel-level agreement of the code blend with the spec blend, for
byte-ranged alpha. -/
theorem blendWhitePixel_eq_spec (p : Pixel) (ha : p.a ≤ 255) :
    blendWhitePixel p = specBlendPixel p := by
  unfold blendWhitePixel specBlendPixel
  rw [blendWhiteChan_eq_spec _ _ ha, blendWhiteChan_eq_spec _ _ ha,
    blendWhiteChan_eq_spec _ _ ha]

set_option maxRecDepth 4000 in
/-- Attribute-value decomposition of the generated SVG document: the
segments between successive double quotes.  Odd positions are the
eleven attribute values of the template, even positions the
inter-value text ending with the attribute names. -/
theorem svgDoc_quote_split (w h : Nat) (data : List Char) (hd : dq ∉ data) :
    splitOnChar dq (svgDocChars w h data) =
      ["<?xml version=".toList, "1.0".toList, " encoding=".toList, "UTF-8".toList,
       " standalone=".toList, "no".toList,
       "?>\n            <svg xmlns=".toList, "http://www.w3.org/2000/svg".toList,
       " \n                 xmlns:xlink=".toList, "http://www.w3.org/1999/xlink".toList,
       " \n                 width=".toList, natChars w,
       " height=".toList, natChars h,
       " viewBox=".toList, "0 0 ".toList ++ (natChars w ++ (" ".toList ++ natChars h)),
       ">\n                <image width=".toList, natChars w,
       " height=".toList, natChars h,
       " \n                       xlink:href=".toList,
       "data:image/png;base64,".toList ++ data,
       "/>\n            </svg>".toList] := by
  have hp1 : svgPart1 =
      "<?xml version=".toList ++ dq :: ("1.0".toList ++ dq :: (" encoding=".toList ++ dq ::
        ("UTF-8".toList ++ dq :: (" standalone=".toList ++ dq :: ("no".toList ++ dq ::
        ("?>\n            <svg xmlns=".toList ++ dq :: ("http://www.w3.org/2000/svg".toList ++ dq ::
        (" \n                 xmlns:xlink=".toList ++ dq :: ("http://www.w3.org/1999/xlink".toList ++ dq ::
        (" \n                 width=".toList ++ [dq])))))))))) := by decide
  have hp2 : svgPart2 = dq :: (" height=".toList ++ [dq]) := by decide
  have hp3 : svgPart3 = dq :: (" viewBox=".toList ++ (dq :: "0 0 ".toList)) := by decide
  have hp4 : svgPart4 = " ".toList := rfl
  have hp5 : svgPart5 = dq :: (">\n                <image width=".toList ++ [dq]) := by decide
  have hp6 : svgPart6 =
      dq :: (" \n                       xlink:href=".toList ++ (dq :: "data:image/png;base64,".toList)) := by
    decide
  have hp7 : svgPart7 = dq :: "/>\n            </svg>".toList := by decide
  have hdoc : svgDocChars w h data =
      "<?xml version=".toList ++ dq :: ("1.0".toList ++ dq :: (" encoding=".toList ++ dq ::
      ("UTF-8".toList ++ dq :: (" standalone=".toList ++ dq :: ("no".toList ++ dq ::
      ("?>\n            <svg xmlns=".toList ++ dq :: ("http://www.w3.org/2000/svg".toList ++ dq ::
      (" \n                 xmlns:xlink=".toList ++ dq :: ("http://www.w3.org/1999/xlink".toList ++ dq ::
      (" \n                 width=".toList ++ dq :: (natChars w ++ dq ::
      (" height=".toList ++ dq :: (natChars h ++ dq ::
      (" viewBox=".toList ++ dq :: (("0 0 ".toList ++ (natChars w ++ (" ".toList ++ natChars h))) ++ dq ::
      (">\n                <image width=".toList ++ dq :: (natChars w ++ dq ::
      (" height=".toList ++ dq :: (natChars h ++ dq ::
      (" \n                       xlink:href=".toList ++ dq ::
      (("data:image/png;base64,".toList ++ data) ++ dq ::
      ("/>\n            </svg>".toList)))))))))))))))))))))) := by
    rw [svgDocChars, hp1, hp2, hp3, hp4, hp5, hp6, hp7]
    simp only [List.append_assoc, List.cons_append, List.singleton_append, List.nil_append]
  rw [hdoc]
  rw [splitOnChar_append _ _ (by decide), splitOnChar_append _ _ (by decide),
    splitOnChar_append _ _ (by decide), splitOnChar_append _ _ (by decide),
    splitOnChar_append _ _ (by decide), splitOnChar_append _ _ (by decide),
    splitOnChar_append _ _ (by decide), splitOnChar_append _ _ (by decide),
    splitOnChar_append _ _ (by decide), splitOnChar_append _ _ (by decide),
    splitOnChar_append _ _ (by decide),
    splitOnChar_append _ _ (natChars_no_dq w),
    splitOnChar_append _ _ (by decide),
    splitOnChar_append _ _ (natChars_no_dq h),
    splitOnChar_append _ _ (by decide),
    splitOnChar_append _ _ (by
      simp only [List.mem_append, not_or]
      exact ⟨by decide, natChars_no_dq w, by decide, natChars_no_dq h⟩),
    splitOnChar_append _ _ (by decide),
    splitOnChar_append _ _ (natChars_no_dq w),
    splitOnChar_append _ _ (by decide),
    splitOnChar_append _ _ (natChars_no_dq h),
    splitOnChar_append _ _ (by decide),
    splitOnChar_append _ _ (by simp only [List.mem_append, not_or]; exact ⟨by decide, hd⟩),
    splitOnChar_of_not_mem (by decide)]

set_option maxRecDepth 4000 in
/-- Markup-item decomposition of the generated SVG document: the
segments between successive opening angle brackets.  There are exactly
five: the empty text before the XML declaration, then the declaration,
the root svg element, the single image element, and the closing tag. -/
theorem svgDoc_lt_split (w h : Nat) (data : List Char) (hd : '<' ∉ data) :
    splitOnChar '<' (svgDocChars w h data) =
      [[],
       "?xml version=\"1.0\" encoding=\"UTF-8\" standalone=\"no\"?>\n            ".toList,
       "svg xmlns=\"http://www.w3.org/2000/svg\" \n                 xmlns:xlink=\"http://www.w3.org/1999/xlink\" \n                 width=\"".toList ++
         (natChars w ++ ("\" height=\"".toList ++ (natChars h ++ ("\" viewBox=\"0 0 ".toList ++
         (natChars w ++ (" ".toList ++ (natChars h ++ "\">\n                ".toList))))))),
       "image width=\"".toList ++ (natChars w ++ ("\" height=\"".toList ++ (natChars h ++
         ("\" \n                       xlink:href=\"data:image/png;base64,".toList ++
         (data ++ "\"/>\n            ".toList))))),
       "/svg>".toList] := by
  have hp1 : svgPart1 =
      '<' :: ("?xml version=\"1.0\" encoding=\"UTF-8\" standalone=\"no\"?>\n            ".toList ++
        '<' :: "svg xmlns=\"http://www.w3.org/2000/svg\" \n                 xmlns:xlink=\"http://www.w3.org/1999/xlink\" \n                 width=\"".toList) := by
    decide
  have hp5 : svgPart5 = "\">\n                ".toList ++ '<' :: "image width=\"".toList := by decide
  have hp7 : svgPart7 = "\"/>\n            ".toList ++ '<' :: "/svg>".toList := by decide
  have hdoc : svgDocChars w h data =
      '<' :: ("?xml version=\"1.0\" encoding=\"UTF-8\" standalone=\"no\"?>\n            ".toList ++
      '<' :: (("svg xmlns=\"http://www.w3.org/2000/svg\" \n                 xmlns:xlink=\"http://www.w3.org/1999/xlink\" \n                 width=\"".toList ++
        (natChars w ++ ("\" height=\"".toList ++ (natChars h ++ ("\" viewBox=\"0 0 ".toList ++
        (natChars w ++ (" ".toList ++ (natChars h ++ "\">\n                ".toList)))))))) ++
      '<' :: (("image width=\"".toList ++ (natChars w ++ ("\" height=\"".toList ++ (natChars h ++
        ("\" \n                       xlink:href=\"data:image/png;base64,".toList ++
        (data ++ "\"/>\n            ".toList)))))) ++
      '<' :: ("/svg>".toList)))) := by
    rw [svgDocChars, hp1, hp5, hp7]
    simp only [svgPart2, svgPart3, svgPart4, svgPart6, List.append_assoc, List.cons_append,
      List.singleton_append, List.nil_append]
  rw [hdoc]
  rw [splitOnChar_cons_self]
  rw [splitOnChar_append _ _ (by decide)]
  rw [splitOnChar_append _ _ (by
    simp only [List.mem_append, not_or]
    exact ⟨by decide, natChars_no_lt w, by decide, natChars_no_lt h, by decide,
      natChars_no_lt w, by decide, natChars_no_lt h, by decide⟩)]
  rw [splitOnChar_append _ _ (by
    simp only [List.mem_append, not_or]
    exact ⟨by decide, natChars_no_lt w, by decide, natChars_no_lt h, by decide, hd, by decide⟩)]
  rw [splitOnChar_of_not_mem (by decide)]

set_option maxRecDepth 4000 in
/-- Tag-name view of the markup decomposition: the first six characters
of each markup item.  The document consists of exactly one XML
declaration, one root svg element, one image element and one closing
tag, in that order. -/
theorem svgDoc_tags (w h : Nat) (data : List Char) (hd : '<' ∉ data) :
    (splitOnChar '<' (svgDocChars w h data)).map (fun s => s.take 6) =
      [[], "?xml v".toList, "svg xm".toList, "image ".toList, "/svg>".toList] := by
  rw [svgDoc_lt_split w h data hd]
  simp only [List.map]
  refine congrArg₂ _ rfl ?_
  refine congrArg₂ _ ?_ (congrArg₂ _ ?_ (congrArg₂ _ ?_ (congrArg₂ _ ?_ rfl)))
  · decide
  · rw [List.take_append_of_le_length (by decide)]
    decide
  · rw [List.take_append_of_le_length (by decide)]
    decide
  · decide

/-! ## Claim theorems -/

/-- **C1, counterexample.**  The claim says an SVG export with the
background-removal flag enabled is rejected at request-validation time
with `IncompatibleOption`.  It is not: at a concrete request (format
SVG, checkbox checked, rembg available, a finished removal job result
at hand), the save pipeline completes successfully, skips the
background-removal step (`bgRemovalInvoked = false`, the
`selected_format != "SVG"` conjunct of app.py 991), produces the SVG
document from the untransformed image, and in particular does not
return `IncompatibleOption`.  The external resampler and PNG encoder
are instantiated arbitrarily; neither affects the control flow shown. -/
theorem C1_counterexample :
    save_image (fun img w h => { width := w, height := h, mode := img.mode, pixels := img.pixels })
        (fun _ => []) Format.SVG true true (BgJobOutcome.done imgSmall) 4 4 85 85
        false false false false false false imgRGBA
      = Except.ok { resizedTo := (4, 4), bgRemovalInvoked := false,
                    encoded := Encoded.svg (svgDocChars 4 4 []) } ∧
    save_image (fun img w h => { width := w, height := h, mode := img.mode, pixels := img.pixels })
        (fun _ => []) Format.SVG true true (BgJobOutcome.done imgSmall) 4 4 85 85
        false false false false false false imgRGBA
      ≠ Except.error SaveError.incompatibleOption := by
  constructor
  · rfl
  · simp [ save_image]

/-- **C1, amended.**  For every export request with target format SVG
and the background-removal flag enabled, the pipeline is *not*
rejected: the condition of app.py 991 silently skips the
background-removal step and the export completes with an SVG document
built from the resized, untransformed image; no `IncompatibleOption`
error exists anywhere in the source.  Separately, the UI reaction to
selecting SVG (`format_changed`, app.py 1072-1074) disables and
unchecks the flag rather than raising an error. -/
theorem C1_svg_silently_skips (resample : Img → Nat → Nat → Img)
    (pngEncode : Img → List Nat) (avail : Bool) (outc : BgJobOutcome)
    (wv hv q sq : Nat) (s16 s32 s48 s64 s128 s256 : Bool) (current : Img) :
    save_image resample pngEncode Format.SVG true avail outc wv hv q sq
        s16 s32 s48 s64 s128 s256 current
      = Except.ok { resizedTo := (wv, hv), bgRemovalInvoked := false,
                    encoded := Encoded.svg
                      (save_as_svg_direct pngEncode (resample current wv hv) sq) } ∧
    format_changed Format.SVG avail true = (false, false) := by
  constructor
  · cases avail <;> rfl
  · rfl

/-- **C4, counterexample.**  The claim says submitting a
background-removal job while a prior job of the same instance is still
running is rejected with `JobAlreadyRunning`.  It is not: with a thread
handle already stored from a running job, the submission step of
app.py 835-840 starts a new thread and overwrites `self.bg_thread`
(silently replacing the handle), and never yields a rejection. -/
theorem C4_counterexample :
    submit_bg_job { bg_thread := some imgRGBA } imgSmall
      = SubmitResult.started { bg_thread := some imgSmall } ∧
    submit_bg_job { bg_thread := some imgRGBA } imgSmall
      ≠ SubmitResult.rejectedJobAlreadyRunning := by
  constructor
  · rfl
  · decide

/-- **C4, amended.**  A submission is never rejected: from every
coordinator state — whether or not a job is already running — the code
unconditionally creates and starts a new `BackgroundRemovalThread` and
overwrites the stored handle; no `JobAlreadyRunning` rejection exists
in the source.  (Mutual exclusion is provided only by the modal
processing dialog of `apply_background_removal`, which blocks the
caller until the running job's terminal signal closes it.) -/
theorem C4_no_rejection (s : AppBgState) (img : Img) :
    submit_bg_job s img = SubmitResult.started { bg_thread := some img } ∧
    submit_bg_job s img ≠ SubmitResult.rejectedJobAlreadyRunning := by
  constructor
  · rfl
  · simp [submit_bg_job]

/-- **C5, counterexample.**  The claim says that whenever
`original.width = 0` or `original.height = 0`, the dimension
calculation returns the edited value unchanged.  With
`original = (0, 5)` (width zero, height positive) and an edited height
of 10, `update_width_maintain_ratio` passes its guard
(`original_size[1] > 0`), computes ratio `0/5 = 0`, truncates
`int(10 × 0) = 0` and the spin box clamps to 1 — changing the width
from 7 to 1 rather than leaving it unchanged. -/
theorem C5_counterexample :
    update_width_maintain_ratio true 0 5 7 10 = 1 ∧ (1 : ℕ) ≠ 7 := by
  decide

/-- **C5, amended.**  Each update function leaves its spin box unchanged
(and performs no division) exactly when the original dimension it
divides by is zero: a width edit leaves the height unchanged when
`original.width = 0`, and a height edit leaves the width unchanged when
`original.height = 0`.  In particular, in the pre-load state
`original = (0, 0)` both functions return the edited values unchanged
with no division by zero; but when exactly one original dimension is
zero, the update guarded by the other (positive) dimension computes
ratio 0 and clamps the companion to 1 instead of leaving it
unchanged. -/
theorem C5_zero_axis (mr : Bool) (origW origH wv hv : Nat) :
    update_height_maintain_ratio mr 0 origH wv hv = hv ∧
    update_width_maintain_ratio mr origW 0 wv hv = wv := by
  constructor <;>
    simp [ update_height_maintain_ratio, update_width_maintain_ratio]

/-- **C6.**  ICO size selection: with no size checked the encoder
substitutes the single default `32×32` resource; otherwise the size
list handed to the ICO encoder contains exactly one entry per checked
size (each counted once, none dropped, none duplicated), and the ICO
branch of the encode step passes exactly this list. -/
theorem C6_ico_size_selection :
    (ico_sizes false false false false false false = [(32, 32)]) ∧
    (∀ s16 s32 s48 s64 s128 s256 : Bool,
      ico_sizes s16 s32 s48 s64 s128 s256 ≠ [] ∧
      (ico_sizes s16 s32 s48 s64 s128 s256).count (16, 16) = (if s16 then 1 else 0) ∧
      (ico_sizes s16 s32 s48 s64 s128 s256).count (32, 32) =
        (if s32 || !(s16 || s32 || s48 || s64 || s128 || s256) then 1 else 0) ∧
      (ico_sizes s16 s32 s48 s64 s128 s256).count (48, 48) = (if s48 then 1 else 0) ∧
      (ico_sizes s16 s32 s48 s64 s128 s256).count (64, 64) = (if s64 then 1 else 0) ∧
      (ico_sizes s16 s32 s48 s64 s128 s256).count (128, 128) = (if s128 then 1 else 0) ∧
      (ico_sizes s16 s32 s48 s64 s128 s256).count (256, 256) = (if s256 then 1 else 0)) ∧
    (∀ (pngEnc : Img → List Nat) (q sq : Nat) (s16 s32 s48 s64 s128 s256 : Bool) (img : Img),
      encodeFor pngEnc Format.ICO q sq s16 s32 s48 s64 s128 s256 img =
        Encoded.ico img (ico_sizes s16 s32 s48 s64 s128 s256)) :=
  ⟨by decide, by decide, fun _ _ _ _ _ _ _ _ _ _ => rfl⟩

/-- **C3.**  JPEG encoding of an `RGBA` buffer with byte-ranged alpha and
requested quality in `[1, 100]` never fails and flattens transparency:
the JPEG branch of the encode step hands the encoder the buffer
composited over opaque white at the requested quality ­— the prepared
buffer has layout `RGB`, every pixel is fully opaque, and its pixels
are exactly the spec's alpha-blend `out = src_rgb × src_alpha/255 +
white × (1 − src_alpha/255)` (rounded to nearest) of the source
pixels. -/
theorem C3_jpeg_rgba_flatten (pngEnc : Img → List Nat) (img : Img)
    (q svgq : Nat) (s16 s32 s48 s64 s128 s256 : Bool)
    (hmode : img.mode = Mode.RGBA)
    (halpha : img.pixels.all (fun p => p.a ≤ 255) = true)
    (_hq1 : 1 ≤ q) (_hq2 : q ≤ 100) :
    encodeFor pngEnc Format.JPEG q svgq s16 s32 s48 s64 s128 s256 img =
      Encoded.jpeg { width := img.width, height := img.height, mode := Mode.RGB,
                     pixels := img.pixels.map blendWhitePixel } q ∧
    (jpegPrepare img).mode = Mode.RGB ∧
    (jpegPrepare img).pixels.all (fun p => p.a == 255) = true ∧
    (jpegPrepare img).pixels = img.pixels.map specBlendPixel := by
  have hjp : jpegPrepare img =
      { width := img.width, height := img.height, mode := Mode.RGB,
        pixels := img.pixels.map blendWhitePixel } := by
    unfold jpegPrepare
    rw [if_pos hmode]
  refine ⟨?_, ?_, ?_, ?_⟩
  · show Encoded.jpeg (jpegPrepare img) q = _
    rw [hjp]
  · rw [hjp]
  · rw [hjp]
    simp [List.all_map, Function.comp, blendWhitePixel]
  · rw [hjp]
    refine List.map_congr_left ?_
    intro p hp
    have hap : p.a ≤ 255 := by
      rw [List.all_eq_true] at halpha
      exact of_decide_eq_true (halpha p hp)
    exact blendWhitePixel_eq_spec p hap

/-- **C3, witness** at a concrete 2×1 RGBA buffer and quality 85. -/
theorem C3_jpeg_rgba_flatten_witness :
    (imgRGBA.mode = Mode.RGBA ∧ imgRGBA.pixels.all (fun p => p.a ≤ 255) = true ∧
      1 ≤ 85 ∧ 85 ≤ 100) ∧
    (encodeFor (fun _ => []) Format.JPEG 85 85 false false false false false false imgRGBA =
        Encoded.jpeg { width := imgRGBA.width, height := imgRGBA.height, mode := Mode.RGB,
                       pixels := imgRGBA.pixels.map blendWhitePixel } 85 ∧
      (jpegPrepare imgRGBA).mode = Mode.RGB ∧
      (jpegPrepare imgRGBA).pixels.all (fun p => p.a == 255) = true ∧
      (jpegPrepare imgRGBA).pixels = imgRGBA.pixels.map specBlendPixel) :=
  ⟨⟨rfl, by decide, by decide, by decide⟩,
    C3_jpeg_rgba_flatten (fun _ => []) imgRGBA 85 85 false false false false false false
      rfl (by decide) (by decide) (by decide)⟩

/-- **C7.**  For every buffer, the SVG writer produces a document with
exactly four markup items — the XML declaration, one root `svg`
element, one `image` child element and the closing tag — and whose
quoted attribute values are, in order: the XML version, encoding and
standalone flags, the SVG and XLink namespaces, the root element's
width and height (the buffer's pixel dimensions in decimal), the
viewBox `0 0 width height`, the image element's matching width and
height, and the `data:image/png;base64,<data>` payload whose data is
the base64 encoding of the external PNG encoder's output on the
buffer. -/
theorem C7_svg_document (pngEncode : Img → List Nat) (img : Img) (q : Nat) :
    (splitOnChar '<' (save_as_svg_direct pngEncode img q)).map (fun s => s.take 6) =
      [[], "?xml v".toList, "svg xm".toList, "image ".toList, "/svg>".toList] ∧
    splitOnChar dq (save_as_svg_direct pngEncode img q) =
      ["<?xml version=".toList, "1.0".toList, " encoding=".toList, "UTF-8".toList,
       " standalone=".toList, "no".toList,
       "?>\n            <svg xmlns=".toList, "http://www.w3.org/2000/svg".toList,
       " \n                 xmlns:xlink=".toList, "http://www.w3.org/1999/xlink".toList,
       " \n                 width=".toList, natChars img.width,
       " height=".toList, natChars img.height,
       " viewBox=".toList,
       "0 0 ".toList ++ (natChars img.width ++ (" ".toList ++ natChars img.height)),
       ">\n                <image width=".toList, natChars img.width,
       " height=".toList, natChars img.height,
       " \n                       xlink:href=".toList,
       "data:image/png;base64,".toList ++ b64encode (pngEncode img),
       "/>\n            </svg>".toList] :=
  ⟨svgDoc_tags img.width img.height (b64encode (pngEncode img)) (b64encode_no_lt _),
   svgDoc_quote_split img.width img.height (b64encode (pngEncode img)) (b64encode_no_dq _)⟩

/-- **C9.**  The SVG writer's output does not depend on the quality
value: the quality the Python code forwards to the in-memory PNG save
is never consulted by PIL's PNG encoder (modelled by the encoder
parameter not taking the quality), so for any two qualities the
documents are byte-identical. -/
theorem C9_quality_independent (pngEncode : Img → List Nat) (img : Img) (q1 q2 : Nat) :
    save_as_svg_direct pngEncode img q1 = save_as_svg_direct pngEncode img q2 := rfl

/-- **C10.**  `apply_background_removal` returns its input image
unchanged (not an error) whenever the rembg capability is unavailable,
or the removal checkbox is not checked, or an exception occurs while
setting the removal job up; the caller then proceeds with the
untransformed image. -/
theorem C10_returns_input_unchanged (avail checked : Bool) (outcome : BgJobOutcome) (img : Img) :
    apply_background_removal false checked outcome img = img ∧
    apply_background_removal avail false outcome img = img ∧
    apply_background_removal avail checked BgJobOutcome.setupError img = img := by
  refine ⟨rfl, ?_, ?_⟩ <;> cases avail <;> cases checked <;> rfl

end PhotoEditor
